import Mathlib

/-!
Verification model of the sdoc HTML report builder (sdoc.py).

The Python module builds a tree of content blocks and renders it to HTML
through jinja2 templates.  The embedding below follows the source:

* Jinja templates are embedded as lists of `Tpl` nodes covering exactly the
  constructs the module uses: literal text, `\x7b\x7b var \x7d\x7d` substitution, a
  `for` loop (plain and pair-unpacking variants) and an `if` guard without
  `else`.  The literal segments are the template strings of the source after
  `textwrap.dedent` (which also blanks whitespace-only lines) and after
  jinja2's default stripping of one trailing newline from the template.
  Jinja2 defaults apply: no autoescaping, no block trimming, an undefined
  variable renders as the empty string, Python `None` renders as "None".
* `Block.render` in the source composes `get_template` with `get_context`;
  here each block variant supplies its context (its attributes, as in the
  default `get_context` returning `self.__dict__`) to its template.
* `TOC.pre_add_hook` stores `parent._blocks`, an alias of the owning
  Document's live list (Python list identity, only ever mutated by
  appending).  The alias is embedded by passing the Document's block
  sequence as it stands at render time (`env`) down the render functions.
* Exceptions are embedded as `Except` values; because a Python exception
  can propagate after `self` was already mutated, the operations return a
  record holding the post-operation state together with the outcome.
* File writes are recorded as `SaveEvent`s: a write log entry holds the
  path and the full content written (mode "w", so a write replaces any
  previous content of the file).
-/

/-- Values that occur in the template contexts of the module. -/
inductive JVal where
  | str (s : String)
  | num (n : Nat)
  | listv (vs : List JVal)
  | pairv (a b : JVal)
  | nonev
deriving Repr

/-- Python `str()` of a context value, as jinja applies it inside
`\x7b\x7b ... \x7d\x7d`.  The templates of this module only ever substitute strings
and (via pair unpacking) numbers. -/
def JVal.toStr : JVal → String
  | .str s => s
  | .num n => toString n
  | .nonev => "None"
  | .listv _ => ""
  | .pairv _ _ => ""

/-- Python truthiness, as jinja evaluates an `if` guard. -/
def JVal.truthy : JVal → Bool
  | .str s => s != ""
  | .num n => n != 0
  | .listv vs => !vs.isEmpty
  | .pairv _ _ => true
  | .nonev => false

def JVal.asList : JVal → List JVal
  | .listv vs => vs
  | _ => []

def JVal.fstv : JVal → JVal
  | .pairv a _ => a
  | v => v

def JVal.sndv : JVal → JVal
  | .pairv _ b => b
  | v => v

/-- A template context: the mapping passed to `jinja2.Template(...).render`. -/
abbrev JCtx := List (String × JVal)

def JCtx.find : JCtx → String → Option JVal
  | [], _ => none
  | (k, v) :: rest, name => if k = name then some v else JCtx.find rest name

/-- The jinja constructs used by sdoc.py's templates. -/
inductive Tpl where
  | lit (s : String)
  | var (name : String)
  | forv (x : String) (seq : String) (body : List Tpl)
  | forp (x y : String) (seq : String) (body : List Tpl)
  | iftag (cond : String) (body : List Tpl)
deriving Repr

mutual

/-- Render one template node under a context (jinja semantics for the
constructs used by the module). -/
def renderTpl : JCtx → Tpl → String
  | _, .lit s => s
  | ctx, .var n =>
      match JCtx.find ctx n with
      | some v => JVal.toStr v
      | none => ""
  | ctx, .forv x seq body =>
      String.join ((JVal.asList ((JCtx.find ctx seq).getD .nonev)).map
        (fun v => renderTpls ((x, v) :: ctx) body))
  | ctx, .forp x y seq body =>
      String.join ((JVal.asList ((JCtx.find ctx seq).getD .nonev)).map
        (fun v => renderTpls ((x, JVal.fstv v) :: (y, JVal.sndv v) :: ctx) body))
  | ctx, .iftag c body =>
      if JVal.truthy ((JCtx.find ctx c).getD .nonev) then renderTpls ctx body else ""

/-- Render a template (a sequence of nodes) under a context. -/
def renderTpls : JCtx → List Tpl → String
  | _, [] => ""
  | ctx, t :: ts => renderTpl ctx t ++ renderTpls ctx ts

end

/-- CSS text of the built-in "default" theme preset (`Document.THEMES`),
verbatim from the source (braces escaped). -/
def defaultCss : String :=
  "\n            body \x7b font-family: system-ui, -apple-system, sans-serif; line-height: 1.5; max-width: 1200px; margin: 0 auto; padding: 2rem; \x7d\n            .code \x7b background: #f6f8fa; padding: 1rem; border-radius: 6px; font-family: monospace; \x7d\n            .blockquote \x7b border-left: 4px solid #ddd; margin: 0; padding-left: 1rem; color: #666; \x7d\n            .row \x7b display: flex; gap: 1rem; margin: 1rem 0; \x7d\n            .col \x7b flex: 1; \x7d\n            .card \x7b border: 1px solid #ddd; border-radius: 6px; padding: 1rem; margin: 1rem 0; \x7d\n            .divider \x7b border: 0; border-top: 1px solid #ddd; margin: 2rem 0; \x7d\n            .pandas-table \x7b width: 100%; overflow-x: auto; \x7d\n            .pandas-table table \x7b width: 100%; border-collapse: collapse; \x7d\n            .pandas-table th, .pandas-table td \x7b border: 1px solid #ddd; padding: 0.5rem; \x7d\n            .table \x7b width: 100%; border-collapse: collapse; margin-bottom: 1rem; color: #212529; \x7d\n            .table th, .table td \x7b padding: 0.75rem; vertical-align: top; border-top: 1px solid #dee2e6; \x7d\n            .table thead th \x7b vertical-align: bottom; border-bottom: 2px solid #dee2e6; \x7d\n            .table tbody + tbody \x7b border-top: 2px solid #dee2e6; \x7d\n            .table-bordered \x7b border: 1px solid #dee2e6; \x7d\n            .table-bordered th, .table-bordered td \x7b border: 1px solid #dee2e6; \x7d\n            .table-bordered thead th, .table-bordered thead td \x7b border-bottom-width: 2px; \x7d\n            .table-striped tbody tr:nth-of-type(odd) \x7b background-color: rgba(0, 0, 0, 0.05); \x7d\n            .table-hover tbody tr:hover \x7b color: #212529; background-color: rgba(0, 0, 0, 0.075); \x7d\n        "

/-- CSS text of the built-in "dark" theme preset (`Document.THEMES`),
verbatim from the source (braces escaped). -/
def darkCss : String :=
  "\n            body \x7b font-family: system-ui, -apple-system, sans-serif; line-height: 1.5; max-width: 1200px; margin: 0 auto; padding: 2rem; background: #1a1a1a; color: #fff; \x7d\n            .code \x7b background: #2d2d2d; padding: 1rem; border-radius: 6px; font-family: monospace; \x7d\n            .blockquote \x7b border-left: 4px solid #444; margin: 0; padding-left: 1rem; color: #aaa; \x7d\n            .row \x7b display: flex; gap: 1rem; margin: 1rem 0; \x7d\n            .col \x7b flex: 1; \x7d\n            .card \x7b border: 1px solid #444; border-radius: 6px; padding: 1rem; margin: 1rem 0; \x7d\n            .divider \x7b border: 0; border-top: 1px solid #444; margin: 2rem 0; \x7d\n            .pandas-table \x7b width: 100%; overflow-x: auto; \x7d\n            .pandas-table table \x7b width: 100%; border-collapse: collapse; \x7d\n            .pandas-table th, .pandas-table td \x7b border: 1px solid #444; padding: 0.5rem; \x7d\n            .table \x7b width: 100%; border-collapse: collapse; margin-bottom: 1rem; color: #fff; \x7d\n            .table th, .table td \x7b padding: 0.75rem; vertical-align: top; border-top: 1px solid #444; \x7d\n            .table thead th \x7b vertical-align: bottom; border-bottom: 2px solid #444; \x7d\n            .table tbody + tbody \x7b border-top: 2px solid #444; \x7d\n            .table-bordered \x7b border: 1px solid #444; \x7d\n            .table-bordered th, .table-bordered td \x7b border: 1px solid #444; \x7d\n            .table-bordered thead th, .table-bordered thead td \x7b border-bottom-width: 2px; \x7d\n            .table-striped tbody tr:nth-of-type(odd) \x7b background-color: rgba(255, 255, 255, 0.05); \x7d\n            .table-hover tbody tr:hover \x7b color: #fff; background-color: rgba(255, 255, 255, 0.075); \x7d\n        "

/-- The `THEMES` class attribute: a name-to-CSS mapping with exactly the two
built-in presets. -/
def THEMES : List (String × String) := [("default", defaultCss), ("dark", darkCss)]

/-- `self.THEMES.get(self.theme, self.THEMES['default'])`. -/
def themesGet (theme : String) : String :=
  (THEMES.lookup theme).getD defaultCss

/-- The block variants of the module that the claims concern.  Each carries
exactly the attributes its Python constructor stores.  `Row`, `Col` and
`Card` own an ordered child list (`_blocks`); `TOC` stores no data of its
own (its back-reference to the owning Document's live list is embedded by
the `env` argument of the render functions). -/
inductive Blk where
  | h1 (text : String)
  | h2 (text : String)
  | h3 (text : String)
  | h4 (text : String)
  | h5 (text : String)
  | h6 (text : String)
  | paragraph (text : String)
  | toc
  | row (blocks : List Blk)
  | col (blocks : List Blk)
  | card (title content : Option String) (blocks : List Blk)
  | divider
  | info (content : String)
  | warning (content : String)
  | error (content : String)
deriving Repr

/-- The kind of container a block is being attached to, as Python's
`isinstance(parent, Document)` check distinguishes it. -/
inductive ParentKind where
  | document
  | row
  | col
  | card
deriving DecidableEq, Repr

/-- Exceptions raised by the module: always `ValueError(msg)`. -/
inductive SdocError where
  | valueError (msg : String)
deriving DecidableEq, Repr

/-- `Block.pre_add_hook` dispatched over the variants: the default is a
no-op; `TOC.pre_add_hook` raises unless the parent is a Document (and on
success captures the alias to the parent's live block list, which the
embedding realizes through the `env` render argument). -/
def Blk.pre_add_hook : Blk → ParentKind → Except SdocError Unit
  | .toc, p =>
      if p = .document then .ok ()
      else .error (.valueError "TOC must be added to a Document")
  | _, _ => .ok ()

/-- `Document.pre_add_hook`: a Document refuses to be attached anywhere. -/
def Document.pre_add_hook (_parent : ParentKind) : Except SdocError Unit :=
  .error (.valueError "Document cannot be added to another block")

-- Templates, as jinja sees them: dedented, one trailing newline stripped.

def h1Tpl : List Tpl := [.lit "<h1>", .var "text", .lit "</h1>"]

def h2Tpl : List Tpl := [.lit "<h2>", .var "text", .lit "</h2>"]

def h3Tpl : List Tpl := [.lit "<h3>", .var "text", .lit "</h3>"]

def h4Tpl : List Tpl := [.lit "<h4>", .var "text", .lit "</h4>"]

def h5Tpl : List Tpl := [.lit "<h5>", .var "text", .lit "</h5>"]

def h6Tpl : List Tpl := [.lit "<h6>", .var "text", .lit "</h6>"]

def paragraphTpl : List Tpl := [.lit "<p>", .var "text", .lit "</p>"]

def dividerTpl : List Tpl := [.lit "<hr class=\"divider\">"]

def infoTpl : List Tpl :=
  [.lit "<div class=\"alert alert-info\">", .var "content", .lit "</div>"]

def warningTpl : List Tpl :=
  [.lit "<div class=\"alert alert-warning\">", .var "content", .lit "</div>"]

def errorTpl : List Tpl :=
  [.lit "<div class=\"alert alert-error\">", .var "content", .lit "</div>"]

def rowTpl : List Tpl :=
  [.lit "\n<div class=\"row\">\n    ",
   .forv "block" "blocks" [.lit "\n        ", .var "block", .lit "\n    "],
   .lit "\n</div>"]

def colTpl : List Tpl :=
  [.lit "\n<div class=\"col\">\n    ",
   .forv "block" "blocks" [.lit "\n        ", .var "block", .lit "\n    "],
   .lit "\n</div>"]

def cardTpl : List Tpl :=
  [.lit "\n<div class=\"card\">\n    ",
   .iftag "title" [.lit "<h3>", .var "title", .lit "</h3>"],
   .lit "\n    ",
   .iftag "content" [.var "content"],
   .lit "\n    ",
   .forv "block" "blocks" [.lit "\n        ", .var "block", .lit "\n    "],
   .lit "\n</div>"]

def tocTpl : List Tpl :=
  [.lit "\n<h1>Table of Contents</h1>\n<ul>\n    ",
   .forp "level" "text" "headers"
     [.lit "\n        <li><a href=\"#", .var "text", .lit "\">", .var "text",
      .lit "</a></li>\n    "],
   .lit "\n</ul>"]

def documentTpl : List Tpl :=
  [.lit "\n<!DOCTYPE html>\n<html>\n<head>\n    <title>", .var "title",
   .lit "</title>\n    <style>\n        ", .var "theme_css",
   .lit "\n        ", .var "custom_css",
   .lit "\n    </style>\n</head>\n<body>\n    ",
   .forv "block" "blocks" [.lit "\n        ", .var "block", .lit "\n    "],
   .lit "\n</body>\n</html>"]

/-- `TOC.get_context`'s header scan: walk the referenced block sequence in
order appending `(1..3, text)` for H1/H2/H3 blocks (H4-H6 fall through the
`elif` chain). -/
def tocHeaders (documentBlocks : List Blk) : List (Nat × String) :=
  documentBlocks.foldl
    (fun headers block =>
      match block with
      | .h1 t => headers ++ [(1, t)]
      | .h2 t => headers ++ [(2, t)]
      | .h3 t => headers ++ [(3, t)]
      | _ => headers) []

/-- A Python `Optional[str]` attribute as a template context value. -/
def jOfOpt : Option String → JVal
  | none => .nonev
  | some s => .str s

mutual

/-- `Block.render` for each variant: compose the variant's template with its
context.  `env` is the owning Document's live top-level block sequence as it
stands at render time (the alias `TOC.pre_add_hook` captured); only the TOC
variant reads it. -/
def renderBlk : List Blk → Blk → String
  | _, .h1 t => renderTpls [("text", .str t)] h1Tpl
  | _, .h2 t => renderTpls [("text", .str t)] h2Tpl
  | _, .h3 t => renderTpls [("text", .str t)] h3Tpl
  | _, .h4 t => renderTpls [("text", .str t)] h4Tpl
  | _, .h5 t => renderTpls [("text", .str t)] h5Tpl
  | _, .h6 t => renderTpls [("text", .str t)] h6Tpl
  | _, .paragraph t => renderTpls [("text", .str t)] paragraphTpl
  | env, .toc =>
      renderTpls
        [("headers",
          .listv ((tocHeaders env).map (fun h => .pairv (.num h.1) (.str h.2))))]
        tocTpl
  | env, .row bs =>
      renderTpls [("blocks", .listv ((renderBlks env bs).map .str))] rowTpl
  | env, .col bs =>
      renderTpls [("blocks", .listv ((renderBlks env bs).map .str))] colTpl
  | env, .card title content bs =>
      renderTpls
        [("title", jOfOpt title), ("content", jOfOpt content),
         ("blocks", .listv ((renderBlks env bs).map .str))]
        cardTpl
  | _, .divider => renderTpls [] dividerTpl
  | _, .info c => renderTpls [("content", .str c)] infoTpl
  | _, .warning c => renderTpls [("content", .str c)] warningTpl
  | _, .error c => renderTpls [("content", .str c)] errorTpl

/-- `[block.render() for block in self._blocks]` of the container contexts. -/
def renderBlks : List Blk → List Blk → List String
  | _, [] => []
  | env, b :: bs => renderBlk env b :: renderBlks env bs

end

example : renderBlk [] (.h1 "x") = "<h1>x</h1>" := by rfl

example :
    renderBlk [] (.row [.paragraph "hi"]) =
      "\n<div class=\"row\">\n    \n        <p>hi</p>\n    \n</div>" := by rfl

example :
    renderBlk [.toc, .h1 "Later"] .toc =
      "\n<h1>Table of Contents</h1>\n<ul>\n    \n        <li><a href=\"#Later\">Later</a></li>\n    \n</ul>" := by
  rfl

/-- The `Document` root container; field defaults are the `__init__`
defaults. -/
structure Document where
  title : String := "My Report"
  destination : Option String := none
  autosave : Bool := false
  theme : String := "default"
  custom_css : Option String := none
  blocks : List Blk := []
deriving Repr

/-- `Document.get_context`: title, resolved theme CSS, `custom_css or ''`,
and the rendered fragments of the top-level blocks (the document's own live
sequence is the `env` a contained TOC scans). -/
def Document.get_context (d : Document) : JCtx :=
  [("title", .str d.title),
   ("theme_css", .str (themesGet d.theme)),
   ("custom_css", .str (d.custom_css.getD "")),
   ("blocks", .listv ((renderBlks d.blocks d.blocks).map .str))]

/-- `Document.render`: the document shell template under the document
context. -/
def Document.render (d : Document) : String :=
  renderTpls d.get_context documentTpl

/-- One file write performed by `save`: `open(destination, 'w')` truncates,
so the event's content fully replaces whatever the file held. -/
structure SaveEvent where
  destination : String
  content : String
deriving DecidableEq, Repr

/-- `Document.save(destination=None)`: resolve the effective destination
(argument, else stored); raise `ValueError('No destination provided')`
before any write when neither exists; otherwise write `render()` to the
resolved path. -/
def Document.save (d : Document) (destination : Option String) :
    Except SdocError (List SaveEvent) :=
  let destination :=
    match destination with
    | none => d.destination
    | some p => some p
  match destination with
  | none => .error (.valueError "No destination provided")
  | some p => .ok [⟨p, d.render⟩]

/-- Result of `Document.add_block`: the document state after the call (also
when the call raised, since Python keeps in-place mutations that preceded
the raise), the file writes performed, and the outcome (the returned block,
or the exception). -/
structure AddResult where
  doc : Document
  log : List SaveEvent
  outcome : Except SdocError Blk
deriving Repr

/-- `Document.add_block`: run the block's `pre_add_hook(self)` (a raise
leaves the document untouched), append, then under autosave run `save()` —
whose raise propagates with the block already appended. -/
def Document.add_block (d : Document) (block : Blk) : AddResult :=
  match block.pre_add_hook .document with
  | .error e => ⟨d, [], .error e⟩
  | .ok _ =>
    if d.autosave then
      match Document.save { d with blocks := d.blocks ++ [block] } none with
      | .error e => ⟨{ d with blocks := d.blocks ++ [block] }, [], .error e⟩
      | .ok log => ⟨{ d with blocks := d.blocks ++ [block] }, log, .ok block⟩
    else ⟨{ d with blocks := d.blocks ++ [block] }, [], .ok block⟩

/-- Result of a container's `add_block`: the container's child list after
the call, the file writes performed (none in the source), and the outcome. -/
structure ContainerAdd where
  blocks : List Blk
  log : List SaveEvent
  outcome : Except SdocError Blk
deriving Repr

/-- `Row.add_block`: run the child's hook, append, return the child.  The
method performs no save. -/
def Row.add_block (self : List Blk) (block : Blk) : ContainerAdd :=
  match block.pre_add_hook .row with
  | .error e => ⟨self, [], .error e⟩
  | .ok _ => ⟨self ++ [block], [], .ok block⟩

/-- `Col.add_block`: run the child's hook, append, return the child.  The
method performs no save. -/
def Col.add_block (self : List Blk) (block : Blk) : ContainerAdd :=
  match block.pre_add_hook .col with
  | .error e => ⟨self, [], .error e⟩
  | .ok _ => ⟨self ++ [block], [], .ok block⟩

/-- `Card.add_block`: run the child's hook, append, return the child.  The
method performs no save. -/
def Card.add_block (self : List Blk) (block : Blk) : ContainerAdd :=
  match block.pre_add_hook .card with
  | .error e => ⟨self, [], .error e⟩
  | .ok _ => ⟨self ++ [block], [], .ok block⟩

-- Typed `Document` convenience methods (`doc.h1(...)`, ...): construct the
-- block and hand it to `add_block`, returning its result.

def Document.h1 (d : Document) (text : String) : AddResult :=
  d.add_block (.h1 text)

def Document.h2 (d : Document) (text : String) : AddResult :=
  d.add_block (.h2 text)

def Document.h3 (d : Document) (text : String) : AddResult :=
  d.add_block (.h3 text)

def Document.h4 (d : Document) (text : String) : AddResult :=
  d.add_block (.h4 text)

def Document.h5 (d : Document) (text : String) : AddResult :=
  d.add_block (.h5 text)

def Document.h6 (d : Document) (text : String) : AddResult :=
  d.add_block (.h6 text)

def Document.paragraph (d : Document) (text : String) : AddResult :=
  d.add_block (.paragraph text)

def Document.toc (d : Document) : AddResult :=
  d.add_block .toc

def Document.row (d : Document) : AddResult :=
  d.add_block (.row [])

def Document.col (d : Document) : AddResult :=
  d.add_block (.col [])

def Document.card (d : Document) (title content : Option String) : AddResult :=
  d.add_block (.card title content [])

def Document.divider (d : Document) : AddResult :=
  d.add_block .divider

def Document.info (d : Document) (content : String) : AddResult :=
  d.add_block (.info content)

def Document.warning (d : Document) (content : String) : AddResult :=
  d.add_block (.warning content)

def Document.error (d : Document) (content : String) : AddResult :=
  d.add_block (.error content)

-- Global API: the process-wide current-document registry and the
-- module-level convenience functions.

/-- `_current_document`: absent at process start. -/
abbrev GlobalState := Option Document

/-- `get_current_document()`: lazily install `Document()` (all defaults)
when absent; returns the current document and the registry state after the
call. -/
def getCurrentDocument : GlobalState → Document × GlobalState
  | some d => (d, some d)
  | none => (({} : Document), some ({} : Document))

/-- Result of a module-level convenience function: the registry state after
the call (the current document mutated in place), the writes performed, and
the value the function returns — `none` models Python's implicit `None`
return; an exception from the underlying method propagates. -/
structure FreeResult where
  state : GlobalState
  log : List SaveEvent
  ret : Except SdocError (Option Blk)
deriving Repr

/-- Shared shape of every module-level convenience function: fetch the
current document, invoke the corresponding `Document` method, fall off the
end of the function body (returning `None`). -/
def freeCall (st : GlobalState) (method : Document → AddResult) : FreeResult :=
  let (d, _) := getCurrentDocument st
  let r := method d
  ⟨some r.doc, r.log, r.outcome.map (fun _ => none)⟩

def h1Free (st : GlobalState) (text : String) : FreeResult :=
  freeCall st (fun d => d.h1 text)

def h2Free (st : GlobalState) (text : String) : FreeResult :=
  freeCall st (fun d => d.h2 text)

def h3Free (st : GlobalState) (text : String) : FreeResult :=
  freeCall st (fun d => d.h3 text)

def h4Free (st : GlobalState) (text : String) : FreeResult :=
  freeCall st (fun d => d.h4 text)

def h5Free (st : GlobalState) (text : String) : FreeResult :=
  freeCall st (fun d => d.h5 text)

def h6Free (st : GlobalState) (text : String) : FreeResult :=
  freeCall st (fun d => d.h6 text)

def paragraphFree (st : GlobalState) (text : String) : FreeResult :=
  freeCall st (fun d => d.paragraph text)

def rowFree (st : GlobalState) : FreeResult :=
  freeCall st (fun d => d.row)

def colFree (st : GlobalState) : FreeResult :=
  freeCall st (fun d => d.col)

def cardFree (st : GlobalState) (title content : Option String) : FreeResult :=
  freeCall st (fun d => d.card title content)

def dividerFree (st : GlobalState) : FreeResult :=
  freeCall st (fun d => d.divider)

def infoFree (st : GlobalState) (content : String) : FreeResult :=
  freeCall st (fun d => d.info content)

def warningFree (st : GlobalState) (content : String) : FreeResult :=
  freeCall st (fun d => d.warning content)

def errorFree (st : GlobalState) (content : String) : FreeResult :=
  freeCall st (fun d => d.error content)

-- Basic facts about `Document.add_block`, shared by the claim proofs.

theorem add_block_hook_error (d : Document) (b : Blk) (e : SdocError)
    (h : b.pre_add_hook .document = .error e) :
    d.add_block b = ⟨d, [], .error e⟩ := by
  simp [Document.add_block, h]

theorem add_block_hook_ok_doc (d : Document) (b : Blk)
    (h : b.pre_add_hook .document = .ok ()) :
    (d.add_block b).doc = { d with blocks := d.blocks ++ [b] } := by
  simp only [Document.add_block, h]
  by_cases ha : d.autosave = true
  · rw [if_pos ha]
    split <;> rfl
  · rw [if_neg ha]

theorem paragraph_hook_ok (t : String) :
    Blk.pre_add_hook (.paragraph t) .document = .ok () := rfl

theorem toc_hook_document_ok : Blk.pre_add_hook .toc .document = .ok () := rfl

-- Concrete documents used by witnesses and counterexamples.

/-- A default document: no destination, autosave off. -/
def plainDoc : Document := {}

/-- A document with a stored destination. -/
def destDoc : Document := { destination := some "report.html" }

/-- An autosave document with no destination: its `add_block` raises after
appending. -/
def autosaveNoDestDoc : Document := { autosave := true }

/-- An autosave document with a destination. -/
def autosaveDestDoc : Document := { destination := some "out.html", autosave := true }

/-- C5: For every Document block sequence, the TOC context scan collects, in
sequence order, exactly the (level, text) pairs of heading blocks of levels
1, 2 and 3, excluding levels 4-6; on H1("A"), H4("skip"), H2("B"), H3("C")
it collects exactly [(1,"A"), (2,"B"), (3,"C")]. -/
theorem toc_collects_levels_one_to_three :
    (∀ bs : List Blk,
        tocHeaders bs =
          bs.filterMap (fun b =>
            match b with
            | .h1 t => some (1, t)
            | .h2 t => some (2, t)
            | .h3 t => some (3, t)
            | _ => none))
    ∧ tocHeaders [.h1 "A", .h4 "skip", .h2 "B", .h3 "C"] =
        [(1, "A"), (2, "B"), (3, "C")] := by
  have aux : ∀ (bs : List Blk) (acc : List (Nat × String)),
      bs.foldl (fun headers block =>
        match block with
        | .h1 t => headers ++ [(1, t)]
        | .h2 t => headers ++ [(2, t)]
        | .h3 t => headers ++ [(3, t)]
        | _ => headers) acc
      = acc ++ bs.filterMap (fun b =>
          match b with
          | .h1 t => some (1, t)
          | .h2 t => some (2, t)
          | .h3 t => some (3, t)
          | _ => none) := by
    intro bs
    induction bs with
    | nil => intro acc; simp
    | cons b bs ih => intro acc; cases b <;> simp [ih]
  exact ⟨fun bs => by simpa [tocHeaders] using aux bs [], rfl⟩

/-- C2: The TOC renders from the Document's block sequence as it stands at
render time: a TOC attached first still sees a heading attached afterwards,
and with H1("Later") added after the TOC the rendered TOC carries the entry
for "Later". -/
theorem toc_renders_later_heading :
    (∀ t : String,
        tocHeaders ((((plainDoc.add_block .toc).doc.add_block (.h1 t))).doc.blocks)
          = [(1, t)])
    ∧ (plainDoc.add_block .toc).outcome = .ok .toc
    ∧ ((plainDoc.add_block .toc).doc.add_block (.h1 "Later")).outcome = .ok (.h1 "Later")
    ∧ renderBlk (((plainDoc.add_block .toc).doc.add_block (.h1 "Later")).doc.blocks) .toc
        = "\n<h1>Table of Contents</h1>\n<ul>\n    \n        <li><a href=\"#Later\">Later</a></li>\n    \n</ul>" :=
  ⟨fun _ => rfl, rfl, rfl, rfl⟩

/-- C6: The TOC pre-add hook succeeds exactly when the parent is a Document
and raises the invalid-placement ValueError for Row, Col and Card parents;
adding a TOC to any Document attaches it (appends it to the top-level
sequence). -/
theorem toc_placement_iff_document :
    (∀ p : ParentKind,
        (Blk.pre_add_hook .toc p = .ok () ↔ p = .document)
        ∧ (p ≠ .document →
            Blk.pre_add_hook .toc p =
              .error (.valueError "TOC must be added to a Document")))
    ∧ (∀ d : Document, (d.add_block .toc).doc.blocks = d.blocks ++ [.toc]) := by
  constructor
  · intro p
    cases p <;> simp [Blk.pre_add_hook]
  · intro d
    rw [add_block_hook_ok_doc d .toc toc_hook_document_ok]

/-- Witness for C6 at concrete inputs: a Row parent is rejected with the
invalid-placement error and a default Document receives the TOC. -/
theorem toc_placement_iff_document_witness :
    Blk.pre_add_hook .toc .row =
        .error (.valueError "TOC must be added to a Document")
    ∧ (plainDoc.add_block .toc).doc.blocks = [.toc] :=
  ⟨(toc_placement_iff_document.1 .row).2 (by decide),
   by simpa using toc_placement_iff_document.2 plainDoc⟩

/-- C4 counterexample: attaching the same block a second time is not
rejected — the re-attach succeeds and the block is then held twice in the
Document's sequence. -/
theorem double_attach_counterexample :
    (((plainDoc.add_block (.paragraph "dup")).doc.add_block (.paragraph "dup")).outcome
        = .ok (.paragraph "dup"))
    ∧ ((plainDoc.add_block (.paragraph "dup")).doc.add_block (.paragraph "dup")).doc.blocks
        = [.paragraph "dup", .paragraph "dup"] :=
  ⟨rfl, rfl⟩

/-- C4 (amended): add operations only ever append — an attached block is
never moved, removed or reordered by a later add — but exclusive ownership
is not enforced: re-attaching a block is not rejected, and after attaching
the same block twice the sequence holds it twice. -/
theorem attach_append_only :
    (∀ (d : Document) (b : Blk),
        (d.add_block b).doc.blocks = d.blocks
        ∨ (d.add_block b).doc.blocks = d.blocks ++ [b])
    ∧ (∀ (self : List Blk) (b : Blk),
        ((Row.add_block self b).blocks = self ∨ (Row.add_block self b).blocks = self ++ [b])
        ∧ ((Col.add_block self b).blocks = self ∨ (Col.add_block self b).blocks = self ++ [b])
        ∧ ((Card.add_block self b).blocks = self ∨ (Card.add_block self b).blocks = self ++ [b]))
    ∧ (∀ (d : Document) (t : String),
        ((d.add_block (.paragraph t)).doc.add_block (.paragraph t)).doc.blocks
          = d.blocks ++ [.paragraph t, .paragraph t]) := by
  refine ⟨?_, ?_, ?_⟩
  · intro d b
    cases hb : b.pre_add_hook .document with
    | error e => left; rw [add_block_hook_error d b e hb]
    | ok u =>
      right
      rw [add_block_hook_ok_doc d b (by cases u; exact hb)]
  · intro self b
    refine ⟨?_, ?_, ?_⟩
    · cases hb : b.pre_add_hook .row <;> simp [Row.add_block, hb]
    · cases hb : b.pre_add_hook .col <;> simp [Col.add_block, hb]
    · cases hb : b.pre_add_hook .card <;> simp [Card.add_block, hb]
  · intro d t
    rw [add_block_hook_ok_doc _ _ (paragraph_hook_ok t),
        add_block_hook_ok_doc _ _ (paragraph_hook_ok t)]
    simp

/-- C7: save resolves the effective destination as the explicit argument if
given, else the stored destination; with neither it raises the
missing-destination ValueError without writing; otherwise it performs
exactly one write of render()'s output to the resolved path. -/
theorem save_destination_resolution :
    ∀ (d : Document) (dest : Option String),
      (∀ p, dest = some p → d.save dest = .ok [⟨p, d.render⟩])
      ∧ (dest = none → d.destination = none →
          d.save dest = .error (.valueError "No destination provided"))
      ∧ (∀ p, dest = none → d.destination = some p →
          d.save dest = .ok [⟨p, d.render⟩]) := by
  intro d dest
  refine ⟨?_, ?_, ?_⟩
  · intro p hp
    subst hp
    rfl
  · intro h1 h2
    subst h1
    simp [Document.save, h2]
  · intro p h1 h2
    subst h1
    simp [Document.save, h2]

/-- Witness for C7 at concrete inputs: an explicit argument wins, a missing
destination raises, a stored destination is used. -/
theorem save_destination_resolution_witness :
    (plainDoc.save (some "x.html") = .ok [⟨"x.html", plainDoc.render⟩])
    ∧ (plainDoc.save none = .error (.valueError "No destination provided"))
    ∧ (destDoc.save none = .ok [⟨"report.html", destDoc.render⟩]) :=
  ⟨(save_destination_resolution plainDoc (some "x.html")).1 "x.html" rfl,
   (save_destination_resolution plainDoc none).2.1 rfl rfl,
   (save_destination_resolution destDoc none).2.2 "report.html" rfl rfl⟩

/-- C1 counterexample: on a Document with autosave enabled and no
destination, add_block raises the missing-destination ValueError, yet the
block has been appended — a partial-success state the claim rules out. -/
theorem add_block_partial_success_counterexample :
    (autosaveNoDestDoc.add_block (.paragraph "hi")).outcome
        = .error (.valueError "No destination provided")
    ∧ (autosaveNoDestDoc.add_block (.paragraph "hi")).doc.blocks = [.paragraph "hi"] :=
  ⟨rfl, rfl⟩

/-- C1 (amended): add_block either fails in the pre-add hook with the block
not appended, the sequence unchanged and nothing written, or appends the
block; in the appended case it returns the block and, under autosave, fully
persists (exactly one write of the re-rendered appended document to the
stored destination; no write when autosave is off) — except that when
autosave is enabled and no destination is stored it raises the
missing-destination error with the block already appended and nothing
written.  With autosave disabled the operation is atomic exactly as
originally claimed. -/
theorem add_block_atomicity_amended (d : Document) (b : Blk) :
    ((∃ e, b.pre_add_hook .document = .error e
        ∧ d.add_block b = ⟨d, [], .error e⟩)
      ∨ ((d.add_block b).doc.blocks = d.blocks ++ [b]
          ∧ ((d.autosave = true ∧ d.destination = none
                ∧ (d.add_block b).outcome = .error (.valueError "No destination provided")
                ∧ (d.add_block b).log = [])
             ∨ ((d.add_block b).outcome = .ok b
                 ∧ (d.autosave = true →
                     ∃ p, d.destination = some p
                       ∧ (d.add_block b).log
                           = [⟨p, Document.render { d with blocks := d.blocks ++ [b] }⟩])
                 ∧ (d.autosave = false → (d.add_block b).log = [])))))
    ∧ (d.autosave = false →
        ((d.add_block b).outcome = .ok b ∧ (d.add_block b).doc.blocks = d.blocks ++ [b]
            ∧ (d.add_block b).log = [])
          ∨ ((∃ e, (d.add_block b).outcome = .error e) ∧ (d.add_block b).doc = d
              ∧ (d.add_block b).log = [])) := by
  cases hb : b.pre_add_hook .document with
  | error e =>
    have hE := add_block_hook_error d b e hb
    constructor
    · exact Or.inl ⟨e, rfl, hE⟩
    · intro _
      right
      rw [hE]
      exact ⟨⟨e, rfl⟩, rfl, rfl⟩
  | ok u =>
    cases u
    by_cases ha : d.autosave = true
    · cases hd : d.destination with
      | none =>
        have hs : Document.save { d with blocks := d.blocks ++ [b] } none
            = .error (.valueError "No destination provided") := by
          simp [Document.save, hd]
        have hAll : d.add_block b
            = ⟨{ d with blocks := d.blocks ++ [b] }, [],
                .error (.valueError "No destination provided")⟩ := by
          simp only [Document.add_block, hb]
          rw [if_pos ha, hs]
        constructor
        · right
          rw [hAll]
          exact ⟨rfl, Or.inl ⟨ha, rfl, rfl, rfl⟩⟩
        · intro hfalse
          simp [ha] at hfalse
      | some p =>
        have hs : Document.save { d with blocks := d.blocks ++ [b] } none
            = .ok [⟨p, Document.render { d with blocks := d.blocks ++ [b] }⟩] := by
          simp [Document.save, hd]
        have hAll : d.add_block b
            = ⟨{ d with blocks := d.blocks ++ [b] },
                [⟨p, Document.render { d with blocks := d.blocks ++ [b] }⟩], .ok b⟩ := by
          simp only [Document.add_block, hb]
          rw [if_pos ha, hs]
        constructor
        · right
          rw [hAll]
          exact ⟨rfl, Or.inr ⟨rfl, fun _ => ⟨p, rfl, rfl⟩, fun hf => by simp [ha] at hf⟩⟩
        · intro hfalse
          simp [ha] at hfalse
    · have hAll : d.add_block b = ⟨{ d with blocks := d.blocks ++ [b] }, [], .ok b⟩ := by
        simp [Document.add_block, hb, ha]
      constructor
      · right
        rw [hAll]
        exact ⟨rfl, Or.inr ⟨rfl, fun ht => absurd ht ha, fun _ => rfl⟩⟩
      · intro _
        left
        rw [hAll]
        exact ⟨rfl, rfl, rfl⟩

/-- Witness for the amended C1 at a concrete input: on a default document
(autosave off), adding a paragraph is atomic. -/
theorem add_block_atomicity_amended_witness :
    ((plainDoc.add_block (.paragraph "w")).outcome = .ok (.paragraph "w")
        ∧ (plainDoc.add_block (.paragraph "w")).doc.blocks = [.paragraph "w"]
        ∧ (plainDoc.add_block (.paragraph "w")).log = [])
      ∨ ((∃ e, (plainDoc.add_block (.paragraph "w")).outcome = .error e)
          ∧ (plainDoc.add_block (.paragraph "w")).doc = plainDoc
          ∧ (plainDoc.add_block (.paragraph "w")).log = []) := by
  have h := (add_block_atomicity_amended plainDoc (.paragraph "w")).2 rfl
  simpa [plainDoc] using h

/-- C3 counterexample: with autosave on and a destination set, adding the
card to the document writes once, but adding a child block to that same
card performs no write at all, although it changes the rendered content. -/
theorem card_add_no_autosave_counterexample :
    (autosaveDestDoc.add_block (.card none none [])).log.length = 1
    ∧ Card.add_block [] (.paragraph "hi")
        = ⟨[.paragraph "hi"], [], .ok (.paragraph "hi")⟩
    ∧ renderBlk [] (.card none none [.paragraph "hi"])
        ≠ renderBlk [] (.card none none []) :=
  ⟨rfl, rfl, by decide⟩

/-- C3 (amended): autosave persists only on Document.add_block — under
autosave with a stored destination every top-level add performs exactly one
full write of the re-rendered document — while Row.add_block, Col.add_block
and Card.add_block never perform any write, even when the container already
belongs to an autosave Document. -/
theorem autosave_only_on_document_add :
    (∀ (self : List Blk) (b : Blk),
        (Row.add_block self b).log = []
        ∧ (Col.add_block self b).log = []
        ∧ (Card.add_block self b).log = [])
    ∧ (∀ (d : Document) (b : Blk) (p : String),
        d.autosave = true → d.destination = some p →
          b.pre_add_hook .document = .ok () →
          (d.add_block b).log
            = [⟨p, Document.render { d with blocks := d.blocks ++ [b] }⟩]) := by
  constructor
  · intro self b
    refine ⟨?_, ?_, ?_⟩
    · cases hb : b.pre_add_hook .row <;> simp [Row.add_block, hb]
    · cases hb : b.pre_add_hook .col <;> simp [Col.add_block, hb]
    · cases hb : b.pre_add_hook .card <;> simp [Card.add_block, hb]
  · intro d b p ha hd hb
    have hs : Document.save { d with blocks := d.blocks ++ [b] } none
        = .ok [⟨p, Document.render { d with blocks := d.blocks ++ [b] }⟩] := by
      simp [Document.save, hd]
    simp only [Document.add_block, hb]
    rw [if_pos ha, hs]

/-- Witness for the amended C3 at concrete inputs: a Row child-add writes
nothing; a top-level add on an autosave document writes the re-rendered
document once. -/
theorem autosave_only_on_document_add_witness :
    (Row.add_block [] .divider).log = []
    ∧ (autosaveDestDoc.add_block .divider).log
        = [⟨"out.html", Document.render { autosaveDestDoc with blocks := [.divider] }⟩] := by
  refine ⟨(autosave_only_on_document_add.1 [] .divider).1, ?_⟩
  have h := autosave_only_on_document_add.2 autosaveDestDoc .divider "out.html" rfl rfl rfl
  simpa [autosaveDestDoc] using h

@[simp] theorem JVal.toStr_str (s : String) : JVal.toStr (.str s) = s := rfl

/-- `renderBlks` is the pointwise independent render of the children. -/
theorem renderBlks_eq_map (env bs : List Blk) :
    renderBlks env bs = bs.map (renderBlk env) := by
  induction bs with
  | nil => rfl
  | cons b bs ih => simp [renderBlks, ih]

/-- C9: Rendering a container equals the container's wrapper markup around
the concatenation, in order, of each child's independent render output
(each child fragment framed by the loop's literal whitespace), for Row, Col
and Card; render is a pure function, so re-rendering an unmutated tree is
byte-identical. -/
theorem container_render_compositional :
    ∀ (env : List Blk) (bs : List Blk) (title content : Option String),
      renderBlk env (.row bs)
          = "\n<div class=\"row\">\n    "
            ++ String.join ((bs.map (renderBlk env)).map
                (fun s => "\n        " ++ s ++ "\n    "))
            ++ "\n</div>"
      ∧ renderBlk env (.col bs)
          = "\n<div class=\"col\">\n    "
            ++ String.join ((bs.map (renderBlk env)).map
                (fun s => "\n        " ++ s ++ "\n    "))
            ++ "\n</div>"
      ∧ renderBlk env (.card title content bs)
          = "\n<div class=\"card\">\n    "
            ++ (if (jOfOpt title).truthy then "<h3>" ++ (jOfOpt title).toStr ++ "</h3>" else "")
            ++ "\n    "
            ++ (if (jOfOpt content).truthy then (jOfOpt content).toStr else "")
            ++ "\n    "
            ++ String.join ((bs.map (renderBlk env)).map
                (fun s => "\n        " ++ s ++ "\n    "))
            ++ "\n</div>"
      ∧ (∀ b : Blk, renderBlk env b = renderBlk env b) := by
  intro env bs title content
  refine ⟨?_, ?_, ?_, fun _ => rfl⟩ <;>
    simp [renderBlk, rowTpl, colTpl, cardTpl, renderTpls, renderTpl, JCtx.find,
          JVal.asList, renderBlks_eq_map, List.map_map, Function.comp_def,
          String.append_assoc, String.append_empty]

/-- C8: A theme name that is neither "default" nor "dark" resolves to the
default preset's CSS verbatim, and render places the custom CSS text (empty
string when unset) directly after the theme CSS inside the style block. -/
theorem unknown_theme_falls_back_to_default (d : Document)
    (hdef : d.theme ≠ "default") (hdark : d.theme ≠ "dark") :
    themesGet d.theme = defaultCss
    ∧ d.render
        = "\n<!DOCTYPE html>\n<html>\n<head>\n    <title>" ++ d.title
          ++ "</title>\n    <style>\n        " ++ defaultCss
          ++ "\n        " ++ d.custom_css.getD ""
          ++ "\n    </style>\n</head>\n<body>\n    "
          ++ String.join ((renderBlks d.blocks d.blocks).map
              (fun s => "\n        " ++ s ++ "\n    "))
          ++ "\n</body>\n</html>" := by
  have hbeq1 : (d.theme == "default") = false := beq_eq_false_iff_ne.mpr hdef
  have hbeq2 : (d.theme == "dark") = false := beq_eq_false_iff_ne.mpr hdark
  have hth : themesGet d.theme = defaultCss := by
    simp [themesGet, THEMES, List.lookup, hbeq1, hbeq2]
  refine ⟨hth, ?_⟩
  simp [Document.render, Document.get_context, documentTpl, renderTpls, renderTpl,
        JCtx.find, JVal.asList, hth, List.map_map, Function.comp_def,
        String.append_assoc, String.append_empty]

/-- A document with an unknown theme name and explicit custom CSS. -/
def solarizedDoc : Document :=
  { theme := "solarized", custom_css := some ".custom \x7b color: red \x7d" }

/-- Witness for C8 at a concrete input: the "solarized" theme name falls
back to the default CSS and the custom CSS follows it in the style block. -/
theorem unknown_theme_falls_back_to_default_witness :
    themesGet solarizedDoc.theme = defaultCss
    ∧ solarizedDoc.render
        = "\n<!DOCTYPE html>\n<html>\n<head>\n    <title>" ++ solarizedDoc.title
          ++ "</title>\n    <style>\n        " ++ defaultCss
          ++ "\n        " ++ solarizedDoc.custom_css.getD ""
          ++ "\n    </style>\n</head>\n<body>\n    "
          ++ String.join ((renderBlks solarizedDoc.blocks solarizedDoc.blocks).map
              (fun s => "\n        " ++ s ++ "\n    "))
          ++ "\n</body>\n</html>" :=
  unknown_theme_falls_back_to_default solarizedDoc (by decide) (by decide)

/-- C10: Every module-level convenience function invokes the corresponding
operation on the current document but maps its result away, returning None
(so a container created through the global API cannot be captured), while
the Document-level operation returns the attached block on success. -/
theorem free_functions_discard_result :
    ∀ (st : GlobalState) (t : String) (oc ot : Option String),
      (h1Free st t).ret = ((getCurrentDocument st).1.h1 t).outcome.map (fun _ => none)
      ∧ (h2Free st t).ret = ((getCurrentDocument st).1.h2 t).outcome.map (fun _ => none)
      ∧ (h3Free st t).ret = ((getCurrentDocument st).1.h3 t).outcome.map (fun _ => none)
      ∧ (h4Free st t).ret = ((getCurrentDocument st).1.h4 t).outcome.map (fun _ => none)
      ∧ (h5Free st t).ret = ((getCurrentDocument st).1.h5 t).outcome.map (fun _ => none)
      ∧ (h6Free st t).ret = ((getCurrentDocument st).1.h6 t).outcome.map (fun _ => none)
      ∧ (paragraphFree st t).ret
          = ((getCurrentDocument st).1.paragraph t).outcome.map (fun _ => none)
      ∧ (rowFree st).ret = ((getCurrentDocument st).1.row).outcome.map (fun _ => none)
      ∧ (colFree st).ret = ((getCurrentDocument st).1.col).outcome.map (fun _ => none)
      ∧ (cardFree st ot oc).ret
          = ((getCurrentDocument st).1.card ot oc).outcome.map (fun _ => none)
      ∧ (dividerFree st).ret = ((getCurrentDocument st).1.divider).outcome.map (fun _ => none)
      ∧ (infoFree st t).ret = ((getCurrentDocument st).1.info t).outcome.map (fun _ => none)
      ∧ (warningFree st t).ret
          = ((getCurrentDocument st).1.warning t).outcome.map (fun _ => none)
      ∧ (errorFree st t).ret = ((getCurrentDocument st).1.error t).outcome.map (fun _ => none)
      ∧ (∀ (d : Document) (b : Blk),
          (d.add_block b).outcome = .ok b ∨ ∃ e, (d.add_block b).outcome = .error e) := by
  intro st t oc ot
  refine ⟨rfl, rfl, rfl, rfl, rfl, rfl, rfl, rfl, rfl, rfl, rfl, rfl, rfl, rfl, ?_⟩
  intro d b
  cases hb : b.pre_add_hook .document with
  | error e => exact Or.inr ⟨e, by rw [add_block_hook_error d b e hb]⟩
  | ok u =>
    cases u
    simp only [Document.add_block, hb]
    by_cases ha : d.autosave = true
    · rw [if_pos ha]
      cases Document.save { d with blocks := d.blocks ++ [b] } none with
      | error e => exact Or.inr ⟨e, rfl⟩
      | ok log => exact Or.inl rfl
    · rw [if_neg ha]
      exact Or.inl rfl
